import Mathlib

/-!
Verification of the session-lifecycle core of the Access-learn repository.

The embedding models the two persistence backends as one `Store` of session
rows and profile rows indexed by string ids, timestamps as integer
milliseconds since the epoch, and each lifecycle operation as a pure state
transformer translated line by line from the source:

* `createSession`  — client `createSession` in `src/src/context/AuthContext.tsx`
  (insert a session row, then update the `last_login_at` field of the profile row);
* `closeSession`   — client `closeSession` in `src/src/context/AuthContext.tsx`;
* `login` / `logout` — the Express controllers in
  `src/backend/controllers/authController.js` (the mongoose `User` fields
  `lastLoginAt` / `lastLogoutAt` / `totalActiveMinutes` are the profile
  aggregate here);
* `closeSessionEdge` — the `close-session` edge function (the `serve` handler
  concatenated into `src/backend/server.js`), reached by the unload beacon;
* `handleSignedIn` / `handleAppStart` — the `SIGNED_IN` branch of the
  `onAuthStateChange` listener and the `getSession` initialisation in
  `AuthContext.tsx`, together with the tab-scoped `sessionStorage` cache.

External I/O failure branches (network faults, thrown exceptions) are outside
the model; every theorem speaks about the successful executions of the code.
-/

/-- A row of the sessions table: `user_id`, `login_at`, nullable `logout_at`
and `duration_minutes` (the mongoose `sessionSchema` has the same four
fields under camelCase names). -/
structure Session where
  user_id : String
  login_at : Int
  logout_at : Option Int
  duration_minutes : Option Int
deriving DecidableEq, Repr

/-- A row of the profiles table (equivalently the session-tracking fields of
the mongoose `User`): nullable last-login and last-logout timestamps and the
cumulative active-minutes counter (`NOT NULL DEFAULT 0` in the SQL schema). -/
structure Profile where
  last_login_at : Option Int
  last_logout_at : Option Int
  total_active_minutes : Int
deriving DecidableEq, Repr

/-- The persistence layer: session rows and profile rows indexed by id. -/
structure Store where
  sessions : String → Option Session
  profiles : String → Option Profile

/-- Write (insert or overwrite) the session row with id `sid`. -/
def Store.updateSession (st : Store) (sid : String) (s : Session) : Store :=
  { st with sessions := fun k => if k = sid then some s else st.sessions k }

/-- Write (insert or overwrite) the profile row with id `uid`. -/
def Store.updateProfile (st : Store) (uid : String) (p : Profile) : Store :=
  { st with profiles := fun k => if k = uid then some p else st.profiles k }

/-- Milliseconds in a minute; the `1000 * 60` divisor of the sources. -/
def msPerMinute : Int := 60000

/-- JavaScript `Math.round(d / 60000)` for an integer millisecond difference
`d`: round half toward positive infinity, i.e. the floor of `d/60000 + 1/2`,
computed as a floor division. All three close paths divide the millisecond
difference by `1000 * 60` and apply `Math.round`. -/
def roundMinutes (d : Int) : Int :=
  Int.fdiv (2 * d + msPerMinute) (2 * msPerMinute)

/-- Client `createSession` (AuthContext.tsx lines 57..79): insert a session
row with `login_at = now` and null `logout_at` / `duration_minutes`, then
update the `last_login_at` field of the owning profile. The row id is generated by the
database; here it is the parameter `newSessionId`. The profile update is a
SQL `UPDATE ... WHERE id = userId`, a no-op when no such profile exists.
The two `new Date()` reads of the source are the single instant `now` of
the model, as in every operation here. -/
def createSession (st : Store) (userId : String) (newSessionId : String)
    (now : Int) : Store :=
  let st1 := st.updateSession newSessionId
    { user_id := userId, login_at := now, logout_at := none,
      duration_minutes := none }
  match st1.profiles userId with
  | none => st1
  | some p => st1.updateProfile userId { p with last_login_at := some now }

/-- Client `closeSession` (AuthContext.tsx lines 82..125): fetch the session
row; silently return when it is absent; compute
`Math.round((logoutAt - loginAt) / 60000)` — the source applies no
`Math.max(0, ...)` on this path — write `logout_at` and `duration_minutes`
onto the session, then read the profile and, when it exists, write
`last_logout_at` and the incremented `total_active_minutes`. -/
def closeSession (st : Store) (sessionId userId : String) (now : Int) :
    Store :=
  match st.sessions sessionId with
  | none => st
  | some s =>
    let durationMinutes := roundMinutes (now - s.login_at)
    let st1 := st.updateSession sessionId
      { s with logout_at := some now, duration_minutes := some durationMinutes }
    match st1.profiles userId with
    | none => st1
    | some p =>
      st1.updateProfile userId
        { p with last_logout_at := some now,
                 total_active_minutes := p.total_active_minutes + durationMinutes }

/-- Express `login` (authController.js lines 16..79), the success path after
credential checking: set the `lastLoginAt` field of the user, then create a session row
with `loginAt = now`. The `none` branch is the invalid-credentials response,
which performs no mutation. -/
def login (st : Store) (userId : String) (newSessionId : String) (now : Int) :
    Store :=
  match st.profiles userId with
  | none => st
  | some p =>
    let st1 := st.updateProfile userId { p with last_login_at := some now }
    st1.updateSession newSessionId
      { user_id := userId, login_at := now, logout_at := none,
        duration_minutes := none }

/-- HTTP outcome of the Express `logout` controller. -/
inductive LogoutResponse where
  | badRequest : LogoutResponse
  | notFound : LogoutResponse
  | forbidden : LogoutResponse
  | ok : Int → LogoutResponse
deriving DecidableEq, Repr

/-- Express `logout` (authController.js lines 84..143): 400 when no
`sessionId` is supplied; 404 when the session row is absent; 403 when the
`userId` field of the session differs from the authenticated caller; otherwise write
`logoutAt = now` and `durationMinutes = Math.max(0, Math.round(...))` onto
the session, then (when the user row is found) write `lastLogoutAt` and the
incremented `totalActiveMinutes`. The source never inspects an existing
`logoutAt`. -/
def logout (st : Store) (callerId : String) (sessionId : Option String)
    (now : Int) : LogoutResponse × Store :=
  match sessionId with
  | none => (LogoutResponse.badRequest, st)
  | some sid =>
    match st.sessions sid with
    | none => (LogoutResponse.notFound, st)
    | some s =>
      if s.user_id ≠ callerId then (LogoutResponse.forbidden, st)
      else
        let durationMinutes := max 0 (roundMinutes (now - s.login_at))
        let st1 := st.updateSession sid
          { s with logout_at := some now,
                   duration_minutes := some durationMinutes }
        match st1.profiles callerId with
        | none => (LogoutResponse.ok durationMinutes, st1)
        | some p =>
          (LogoutResponse.ok durationMinutes,
           st1.updateProfile callerId
             { p with last_logout_at := some now,
                      total_active_minutes :=
                        p.total_active_minutes + durationMinutes })

/-- HTTP outcome of the `close-session` edge function. -/
inductive BeaconResponse where
  | badRequest : BeaconResponse
  | notFound : BeaconResponse
  | ok : Int → BeaconResponse
deriving DecidableEq, Repr

/-- The `close-session` edge function (the `serve` handler in
`src/backend/server.js`, payload-handling lines 103..179): 400 when
`session_id` or `user_id` is missing from the beacon payload; 404 when the
session row is absent; otherwise take `logoutTime` from the payload
`logout_at` (falling back to the server clock `now`), compute
`Math.max(0, Math.round(...))`, write the session row, then fetch the
profile row **by the payload `user_id`** — the handler never compares it
with the own `user_id` of the session row — and, when that profile exists, write
`last_logout_at` and the incremented `total_active_minutes`. -/
def closeSessionEdge (st : Store) (session_id user_id : Option String)
    (logout_at : Option Int) (now : Int) : BeaconResponse × Store :=
  match session_id, user_id with
  | some sid, some uid =>
    match st.sessions sid with
    | none => (BeaconResponse.notFound, st)
    | some s =>
      let logoutTime := logout_at.getD now
      let durationMinutes := max 0 (roundMinutes (logoutTime - s.login_at))
      let st1 := st.updateSession sid
        { s with logout_at := some logoutTime,
                 duration_minutes := some durationMinutes }
      let st2 :=
        match st1.profiles uid with
        | none => st1
        | some p =>
          st1.updateProfile uid
            { p with last_logout_at := some logoutTime,
                     total_active_minutes :=
                       p.total_active_minutes + durationMinutes }
      (BeaconResponse.ok durationMinutes, st2)
  | _, _ => (BeaconResponse.badRequest, st)

/-- The tab-scoped client session cache: the `learning_session_id` and
`user_id` entries kept in `sessionStorage`. -/
structure ClientCache where
  learning_session_id : Option String
  user_id : Option String
deriving DecidableEq, Repr

/-- The `SIGNED_IN` branch of the `onAuthStateChange` listener
(AuthContext.tsx lines 136..150): it calls `createSession` unconditionally —
it never reads `sessionStorage` first — and then stores the fresh id and the
user id into the cache. -/
def handleSignedIn (st : Store) (cache : ClientCache)
    (userId newSessionId : String) (now : Int) : Store × ClientCache :=
  let st1 := createSession st userId newSessionId now
  (st1, { learning_session_id := some newSessionId, user_id := some userId })

/-- The `getSession` initialisation (AuthContext.tsx lines 163..186) for an
authenticated user: when a `learning_session_id` is cached, reuse it and
leave both the store and the cache untouched; otherwise create a session and
cache the new id. -/
def handleAppStart (st : Store) (cache : ClientCache)
    (userId newSessionId : String) (now : Int) : Store × ClientCache :=
  match cache.learning_session_id with
  | some _ => (st, cache)
  | none =>
    let st1 := createSession st userId newSessionId now
    (st1, { learning_session_id := some newSessionId, user_id := some userId })

/-- One lifecycle operation, over either backend: open (client insert or
Express login) or close (client, Express logout, or beacon edge function). -/
inductive Op where
  | opCreate (userId newSessionId : String) (now : Int) : Op
  | opLogin (userId newSessionId : String) (now : Int) : Op
  | opCloseClient (sessionId userId : String) (now : Int) : Op
  | opLogout (callerId : String) (sessionId : Option String) (now : Int) : Op
  | opCloseEdge (session_id user_id : Option String) (logout_at : Option Int)
      (now : Int) : Op

/-- Apply one lifecycle operation to the store. -/
def applyOp (st : Store) : Op → Store
  | Op.opCreate u sid t => createSession st u sid t
  | Op.opLogin u sid t => login st u sid t
  | Op.opCloseClient sid u t => closeSession st sid u t
  | Op.opLogout c sid t => (logout st c sid t).2
  | Op.opCloseEdge sid uid lat t => (closeSessionEdge st sid uid lat t).2

/-- Run a list of lifecycle operations from left to right. -/
def runOps (st : Store) (ops : List Op) : Store := ops.foldl applyOp st

/-- The empty persistence layer: no session and no profile rows. -/
def emptyStore : Store :=
  { sessions := fun _ => none, profiles := fun _ => none }

/-- The open/closed invariant of the spec: every stored session has
`logout_at` null exactly when `duration_minutes` is null. -/
def SessionInv (st : Store) : Prop :=
  ∀ sid s, st.sessions sid = some s →
    (s.logout_at = none ↔ s.duration_minutes = none)

/-- An open session row for user `u1`, opened at epoch millisecond 0. -/
def session1 : Session :=
  { user_id := "u1", login_at := 0, logout_at := none,
    duration_minutes := none }

/-- A fresh profile row for user `u1` with zero accumulated minutes. -/
def profile1 : Profile :=
  { last_login_at := none, last_logout_at := none, total_active_minutes := 0 }

/-- A store holding exactly the session `s1` (open, owner `u1`) and the
profiles `u1` and `u2`, both fresh. -/
def store1 : Store :=
  { sessions := fun k => if k = "s1" then some session1 else none,
    profiles := fun k => if k = "u1" ∨ k = "u2" then some profile1 else none }

/-- A store whose only session `s1` (owner `u1`) was opened at millisecond
600000, used to exercise a close time that precedes the open time. -/
def store2 : Store :=
  { sessions := fun k =>
      if k = "s1" then
        some { user_id := "u1", login_at := 600000, logout_at := none,
               duration_minutes := none }
      else none,
    profiles := fun k => if k = "u1" then some profile1 else none }

/-- The client cache as it stands while session `s1` is cached for `u1`. -/
def cache1 : ClientCache :=
  { learning_session_id := some "s1", user_id := some "u1" }

theorem updateSession_profiles (st : Store) (sid : String) (s : Session) :
    (st.updateSession sid s).profiles = st.profiles := rfl

theorem updateProfile_sessions (st : Store) (uid : String) (p : Profile) :
    (st.updateProfile uid p).sessions = st.sessions := rfl

theorem updateSession_self (st : Store) (sid : String) (s : Session) :
    (st.updateSession sid s).sessions sid = some s := by
  simp [Store.updateSession]

theorem updateProfile_self (st : Store) (uid : String) (p : Profile) :
    (st.updateProfile uid p).profiles uid = some p := by
  simp [Store.updateProfile]

/-- C8: a beacon request missing `session_id` or `user_id` is rejected with
the 400 response before any persistence call, and the store is returned
unchanged: no session row and no profile row is mutated. -/
theorem beacon_missing_field_rejected (st : Store)
    (session_id user_id : Option String) (logout_at : Option Int) (now : Int)
    (h : session_id = none ∨ user_id = none) :
    closeSessionEdge st session_id user_id logout_at now =
      (BeaconResponse.badRequest, st) := by
  rcases h with h | h
  · subst h; cases user_id <;> rfl
  · subst h; cases session_id <;> rfl

/-- Witness for `beacon_missing_field_rejected` at a concrete request with
no `session_id`. -/
theorem beacon_missing_field_rejected_witness :
    ((none : Option String) = none ∨ (some "u1" : Option String) = none) ∧
    closeSessionEdge store1 none (some "u1") none 5 =
      (BeaconResponse.badRequest, store1) :=
  ⟨Or.inl rfl,
   beacon_missing_field_rejected store1 none (some "u1") none 5 (Or.inl rfl)⟩

/-- C4: on the explicit-logout path, a session owned by a different user
than the authenticated caller yields the 403 response and the whole store —
session rows and profile rows alike — is unchanged. -/
theorem logout_mismatch_forbidden (st : Store) (sid callerId : String)
    (s : Session) (now : Int) (hs : st.sessions sid = some s)
    (hne : s.user_id ≠ callerId) :
    logout st callerId (some sid) now = (LogoutResponse.forbidden, st) := by
  simp only [logout]
  rw [hs]
  simp [hne]

/-- Witness for `logout_mismatch_forbidden`: caller `u2` attempts to close
session `s1`, which belongs to `u1`. -/
theorem logout_mismatch_forbidden_witness :
    store1.sessions "s1" = some session1 ∧ session1.user_id ≠ "u2" ∧
    logout store1 "u2" (some "s1") 99 = (LogoutResponse.forbidden, store1) :=
  ⟨by decide, by decide,
   logout_mismatch_forbidden store1 "s1" "u2" session1 99 (by decide)
     (by decide)⟩

/-- C5: a close attempt against a session id that matches no session row
reports not-found on the two server paths and returns silently on the
client path, and in all three cases the store is returned unchanged: no
profile field (`last_logout_at`, `total_active_minutes`) is mutated. -/
theorem close_unknown_session_no_mutation (st : Store)
    (sid callerId userId : String) (logout_at : Option Int) (now : Int)
    (h : st.sessions sid = none) :
    logout st callerId (some sid) now = (LogoutResponse.notFound, st) ∧
    closeSessionEdge st (some sid) (some userId) logout_at now =
      (BeaconResponse.notFound, st) ∧
    closeSession st sid userId now = st := by
  refine ⟨?_, ?_, ?_⟩
  · simp only [logout]; rw [h]
  · simp only [closeSessionEdge]; rw [h]
  · simp only [closeSession]; rw [h]

/-- Witness for `close_unknown_session_no_mutation` at the unknown session
id `zz`. -/
theorem close_unknown_session_no_mutation_witness :
    store1.sessions "zz" = none ∧
    (logout store1 "u1" (some "zz") 7 = (LogoutResponse.notFound, store1) ∧
     closeSessionEdge store1 (some "zz") (some "u1") none 7 =
       (BeaconResponse.notFound, store1) ∧
     closeSession store1 "zz" "u1" 7 = store1) :=
  ⟨by decide,
   close_unknown_session_no_mutation store1 "zz" "u1" "u1" none 7 (by decide)⟩

/-- C6: closing an open session with logout time `now` (payload time `T` on
the beacon path) writes `last_logout_at` to that time on the owning profile
and increments `total_active_minutes` by exactly the duration stored on the
session row, on all three close paths, given that the session exists, the
caller is its owner, and the profile read succeeds. -/
theorem close_open_session_updates_profile (st : Store) (sid uid : String)
    (s : Session) (p : Profile) (now T : Int)
    (hs : st.sessions sid = some s) (hopen : s.logout_at = none)
    (hown : s.user_id = uid) (hp : st.profiles uid = some p) :
    ((logout st uid (some sid) now).2.profiles uid =
       some { p with last_logout_at := some now,
                     total_active_minutes :=
                       p.total_active_minutes +
                         max 0 (roundMinutes (now - s.login_at)) } ∧
     (logout st uid (some sid) now).2.sessions sid =
       some { s with logout_at := some now,
                     duration_minutes :=
                       some (max 0 (roundMinutes (now - s.login_at))) }) ∧
    ((closeSession st sid uid now).profiles uid =
       some { p with last_logout_at := some now,
                     total_active_minutes :=
                       p.total_active_minutes + roundMinutes (now - s.login_at) } ∧
     (closeSession st sid uid now).sessions sid =
       some { s with logout_at := some now,
                     duration_minutes :=
                       some (roundMinutes (now - s.login_at)) }) ∧
    ((closeSessionEdge st (some sid) (some uid) (some T) now).2.profiles uid =
       some { p with last_logout_at := some T,
                     total_active_minutes :=
                       p.total_active_minutes +
                         max 0 (roundMinutes (T - s.login_at)) } ∧
     (closeSessionEdge st (some sid) (some uid) (some T) now).2.sessions sid =
       some { s with logout_at := some T,
                     duration_minutes :=
                       some (max 0 (roundMinutes (T - s.login_at))) }) := by
  refine ⟨⟨?_, ?_⟩, ⟨?_, ?_⟩, ⟨?_, ?_⟩⟩ <;>
    simp [logout, closeSession, closeSessionEdge, Store.updateSession,
          Store.updateProfile, hs, hown, hp]

/-- C10: the beacon endpoint credits whatever profile the request payload
names: for an existing session row `s` and an arbitrary payload `user_id` —
the handler never compares it with `s.user_id` — the profile with the
payload id receives the `last_logout_at` write and the
`total_active_minutes` increment when it exists, and the session row is
closed with `logout_at` even when the payload id names no profile at all. -/
theorem beacon_credits_payload_user (st : Store) (sid uid : String)
    (s : Session) (now T : Int) (hs : st.sessions sid = some s) :
    (∀ p, st.profiles uid = some p →
      (closeSessionEdge st (some sid) (some uid) (some T) now).2.profiles uid =
        some { p with last_logout_at := some T,
                      total_active_minutes :=
                        p.total_active_minutes +
                          max 0 (roundMinutes (T - s.login_at)) }) ∧
    (st.profiles uid = none →
      (closeSessionEdge st (some sid) (some uid) (some T) now).2.sessions sid =
        some { s with logout_at := some T,
                      duration_minutes :=
                        some (max 0 (roundMinutes (T - s.login_at))) }) := by
  constructor
  · intro p hp
    simp [closeSessionEdge, Store.updateSession, Store.updateProfile, hs, hp]
  · intro hp
    simp [closeSessionEdge, Store.updateSession, Store.updateProfile, hs, hp]

/-- The store after a first explicit-logout close of session `s1` at
millisecond 300000 (minute 5): `s1` is closed with duration 5 and the
profile `u1` holds `total_active_minutes = 5`. -/
def store1Closed : Store := (logout store1 "u1" (some "s1") 300000).2

/-- C1 counterexample: after the first close of `s1` the profile total is 5;
a second close of the same, already-closed session at millisecond 600000
leaves the total at 15, not 5 — the second close does not find `logout_at`
set and skip the profile-total update; it recomputes a duration of 10 and
adds it again. -/
theorem close_twice_double_counts :
    store1Closed.profiles "u1" =
      some { last_login_at := none, last_logout_at := some 300000,
             total_active_minutes := 5 } ∧
    (logout store1Closed "u1" (some "s1") 600000).2.profiles "u1" =
      some { last_login_at := none, last_logout_at := some 600000,
             total_active_minutes := 15 } ∧
    (15 : Int) ≠ 5 := by decide

/-- C1 amended: no close path inspects an existing `logout_at`, so a second
close against an already-closed session is not skipped: on the
explicit-logout path and on the beacon path it overwrites the session row
and increments the `total_active_minutes` of the owning profile again by the
duration recomputed from the second close time. -/
theorem second_close_increments_total_again (st : Store) (sid uid : String)
    (s : Session) (p : Profile) (now T : Int)
    (hs : st.sessions sid = some s) (hclosed : s.logout_at ≠ none)
    (hown : s.user_id = uid) (hp : st.profiles uid = some p) :
    (logout st uid (some sid) now).2.profiles uid =
      some { p with last_logout_at := some now,
                    total_active_minutes :=
                      p.total_active_minutes +
                        max 0 (roundMinutes (now - s.login_at)) } ∧
    (closeSessionEdge st (some sid) (some uid) (some T) now).2.profiles uid =
      some { p with last_logout_at := some T,
                    total_active_minutes :=
                      p.total_active_minutes +
                        max 0 (roundMinutes (T - s.login_at)) } := by
  constructor <;>
    simp [logout, closeSessionEdge, Store.updateSession, Store.updateProfile,
          hs, hown, hp]

/-- Witness for `second_close_increments_total_again`: the already-closed
session `s1` of `store1Closed` is closed a second time. -/
theorem second_close_increments_total_again_witness :
    store1Closed.sessions "s1" =
      some { user_id := "u1", login_at := 0, logout_at := some 300000,
             duration_minutes := some 5 } ∧
    ({ user_id := "u1", login_at := 0, logout_at := some 300000,
       duration_minutes := some 5 : Session }.logout_at ≠ none) ∧
    ({ user_id := "u1", login_at := 0, logout_at := some 300000,
       duration_minutes := some 5 : Session }.user_id = "u1") ∧
    store1Closed.profiles "u1" =
      some { last_login_at := none, last_logout_at := some 300000,
             total_active_minutes := 5 } ∧
    ((logout store1Closed "u1" (some "s1") 600000).2.profiles "u1" =
      some { { last_login_at := none, last_logout_at := some 300000,
               total_active_minutes := 5 : Profile } with
             last_logout_at := some 600000,
             total_active_minutes :=
               ({ last_login_at := none, last_logout_at := some 300000,
                  total_active_minutes := 5 : Profile }).total_active_minutes +
                 max 0 (roundMinutes (600000 -
                   ({ user_id := "u1", login_at := 0, logout_at := some 300000,
                      duration_minutes := some 5 : Session }).login_at)) } ∧
     (closeSessionEdge store1Closed (some "s1") (some "u1") (some 600000)
         600000).2.profiles "u1" =
      some { { last_login_at := none, last_logout_at := some 300000,
               total_active_minutes := 5 : Profile } with
             last_logout_at := some 600000,
             total_active_minutes :=
               ({ last_login_at := none, last_logout_at := some 300000,
                  total_active_minutes := 5 : Profile }).total_active_minutes +
                 max 0 (roundMinutes (600000 -
                   ({ user_id := "u1", login_at := 0, logout_at := some 300000,
                      duration_minutes := some 5 : Session }).login_at)) }) :=
  ⟨by decide, by decide, by decide, by decide,
   second_close_increments_total_again store1Closed "s1" "u1"
     { user_id := "u1", login_at := 0, logout_at := some 300000,
       duration_minutes := some 5 }
     { last_login_at := none, last_logout_at := some 300000,
       total_active_minutes := 5 }
     600000 600000 (by decide) (by decide) (by decide) (by decide)⟩

/-- C2 counterexample: with session id `s1` already cached for this tab
(`cache1`), a `SIGNED_IN` event still inserts a brand-new session row `s2`
into the store (there was none before) and overwrites the cache with the
fresh id instead of reusing `s1`. -/
theorem signedIn_opens_duplicate_despite_cache :
    cache1.learning_session_id = some "s1" ∧
    store1.sessions "s2" = none ∧
    (handleSignedIn store1 cache1 "u1" "s2" 100).1.sessions "s2" =
      some { user_id := "u1", login_at := 100, logout_at := none,
             duration_minutes := none } ∧
    (handleSignedIn store1 cache1 "u1" "s2" 100).2.learning_session_id =
      some "s2" ∧
    (some "s2" : Option String) ≠ some "s1" := by decide

/-- C2 amended: only the app-start initialisation consults the client
session cache — with a session id cached it reuses it, leaving the store
and the cache untouched; the `SIGNED_IN` handler never reads the cache: it
always inserts a fresh open session row and overwrites the cache with the
fresh session id and user id. -/
theorem appStart_reuses_cached_session (st : Store) (cache : ClientCache)
    (userId newSessionId sid : String) (now : Int)
    (h : cache.learning_session_id = some sid) :
    handleAppStart st cache userId newSessionId now = (st, cache) ∧
    (handleSignedIn st cache userId newSessionId now).1.sessions newSessionId =
      some { user_id := userId, login_at := now, logout_at := none,
             duration_minutes := none } ∧
    (handleSignedIn st cache userId newSessionId now).2 =
      { learning_session_id := some newSessionId, user_id := some userId } := by
  refine ⟨?_, ?_, rfl⟩
  · unfold handleAppStart
    rw [h]
  · show (createSession st userId newSessionId now).sessions newSessionId = _
    unfold createSession
    cases hp : st.profiles userId <;>
      simp [hp, Store.updateSession, Store.updateProfile]

/-- Witness for `appStart_reuses_cached_session` on the concrete cache
`cache1`, which holds the session id `s1`. -/
theorem appStart_reuses_cached_session_witness :
    cache1.learning_session_id = some "s1" ∧
    (handleAppStart store1 cache1 "u1" "s2" 7 = (store1, cache1) ∧
     (handleSignedIn store1 cache1 "u1" "s2" 7).1.sessions "s2" =
       some { user_id := "u1", login_at := 7, logout_at := none,
              duration_minutes := none } ∧
     (handleSignedIn store1 cache1 "u1" "s2" 7).2 =
       { learning_session_id := some "s2", user_id := some "u1" }) :=
  ⟨by decide, appStart_reuses_cached_session store1 cache1 "u1" "s2" "s1" 7
    (by decide)⟩

/-- C3 counterexample: on the client close path the stored duration is the
bare rounded difference with no zero floor — closing session `s1` of
`store2` (opened at millisecond 600000) at millisecond 0 stores
`duration_minutes = -10`, while `max 0 (round ...)` is 0. -/
theorem client_close_stores_negative_duration :
    (closeSession store2 "s1" "u1" 0).sessions "s1" =
      some { user_id := "u1", login_at := 600000, logout_at := some 0,
             duration_minutes := some (-10) } ∧
    max 0 (roundMinutes (0 - 600000)) = 0 ∧
    ((-10 : Int)) ≠ 0 := by decide

/-- C3 amended: the explicit-logout and beacon endpoints store
`duration_minutes = max 0 (round of the minute difference)`, but the client
`closeSession` path stores the bare rounded difference without the zero
floor, so a negative duration can be persisted there. -/
theorem duration_formula_per_path (st : Store) (sid uid : String)
    (s : Session) (now T : Int) (hs : st.sessions sid = some s)
    (hown : s.user_id = uid) :
    (logout st uid (some sid) now).2.sessions sid =
      some { s with logout_at := some now,
                    duration_minutes :=
                      some (max 0 (roundMinutes (now - s.login_at))) } ∧
    (closeSessionEdge st (some sid) (some uid) (some T) now).2.sessions sid =
      some { s with logout_at := some T,
                    duration_minutes :=
                      some (max 0 (roundMinutes (T - s.login_at))) } ∧
    (closeSession st sid uid now).sessions sid =
      some { s with logout_at := some now,
                    duration_minutes :=
                      some (roundMinutes (now - s.login_at)) } := by
  refine ⟨?_, ?_, ?_⟩ <;>
  · simp only [logout, closeSessionEdge, closeSession]
    rw [hs]
    cases hp : st.profiles uid <;>
      simp [hp, Store.updateSession, Store.updateProfile, hown]

/-- Witness for `duration_formula_per_path` on session `s1` of `store1`,
closed at millisecond 930000 (15.5 minutes, rounding half-up to 16). -/
theorem duration_formula_per_path_witness :
    store1.sessions "s1" = some session1 ∧ session1.user_id = "u1" ∧
    ((logout store1 "u1" (some "s1") 930000).2.sessions "s1" =
       some { session1 with logout_at := some 930000,
                            duration_minutes :=
                              some (max 0 (roundMinutes
                                (930000 - session1.login_at))) } ∧
     (closeSessionEdge store1 (some "s1") (some "u1") (some 930000)
         930000).2.sessions "s1" =
       some { session1 with logout_at := some 930000,
                            duration_minutes :=
                              some (max 0 (roundMinutes
                                (930000 - session1.login_at))) } ∧
     (closeSession store1 "s1" "u1" 930000).sessions "s1" =
       some { session1 with logout_at := some 930000,
                            duration_minutes :=
                              some (roundMinutes
                                (930000 - session1.login_at)) }) :=
  ⟨by decide, by decide,
   duration_formula_per_path store1 "s1" "u1" session1 930000 930000
     (by decide) (by decide)⟩

/-- C9: opening a session — via the client `createSession` or the Express
`login` — writes only `last_login_at` on the profile: the result is the old
profile with `last_login_at := now`, so `last_logout_at` and
`total_active_minutes` keep their previous values (in particular a zero
total stays zero). -/
theorem open_touches_only_last_login (st : Store)
    (userId newSessionId : String) (p : Profile) (now : Int)
    (hp : st.profiles userId = some p) :
    (createSession st userId newSessionId now).profiles userId =
      some { p with last_login_at := some now } ∧
    (login st userId newSessionId now).profiles userId =
      some { p with last_login_at := some now } := by
  constructor <;>
    simp [createSession, login, Store.updateSession, Store.updateProfile, hp]

/-- Witness for `open_touches_only_last_login`: user `u1` of `store1` (zero
accumulated minutes) opens session `s3` at millisecond 42. -/
theorem open_touches_only_last_login_witness :
    store1.profiles "u1" = some profile1 ∧
    ((createSession store1 "u1" "s3" 42).profiles "u1" =
       some { profile1 with last_login_at := some 42 } ∧
     (login store1 "u1" "s3" 42).profiles "u1" =
       some { profile1 with last_login_at := some 42 }) :=
  ⟨by decide, open_touches_only_last_login store1 "u1" "s3" profile1 42
    (by decide)⟩

/-- Witness for `close_open_session_updates_profile`: the open session `s1`
of `store1`, owned by `u1` with a zero-total profile, closed at millisecond
300000 on each path. -/
theorem close_open_session_updates_profile_witness :
    store1.sessions "s1" = some session1 ∧ session1.logout_at = none ∧
    session1.user_id = "u1" ∧ store1.profiles "u1" = some profile1 ∧
    (((logout store1 "u1" (some "s1") 300000).2.profiles "u1" =
        some { profile1 with last_logout_at := some 300000,
                             total_active_minutes :=
                               profile1.total_active_minutes +
                                 max 0 (roundMinutes
                                   (300000 - session1.login_at)) } ∧
      (logout store1 "u1" (some "s1") 300000).2.sessions "s1" =
        some { session1 with logout_at := some 300000,
                             duration_minutes :=
                               some (max 0 (roundMinutes
                                 (300000 - session1.login_at))) }) ∧
     ((closeSession store1 "s1" "u1" 300000).profiles "u1" =
        some { profile1 with last_logout_at := some 300000,
                             total_active_minutes :=
                               profile1.total_active_minutes +
                                 roundMinutes (300000 - session1.login_at) } ∧
      (closeSession store1 "s1" "u1" 300000).sessions "s1" =
        some { session1 with logout_at := some 300000,
                             duration_minutes :=
                               some (roundMinutes
                                 (300000 - session1.login_at)) }) ∧
     ((closeSessionEdge store1 (some "s1") (some "u1") (some 300000)
          300000).2.profiles "u1" =
        some { profile1 with last_logout_at := some 300000,
                             total_active_minutes :=
                               profile1.total_active_minutes +
                                 max 0 (roundMinutes
                                   (300000 - session1.login_at)) } ∧
      (closeSessionEdge store1 (some "s1") (some "u1") (some 300000)
          300000).2.sessions "s1" =
        some { session1 with logout_at := some 300000,
                             duration_minutes :=
                               some (max 0 (roundMinutes
                                 (300000 - session1.login_at))) })) :=
  ⟨by decide, by decide, by decide, by decide,
   close_open_session_updates_profile store1 "s1" "u1" session1 profile1
     300000 300000 (by decide) (by decide) (by decide) (by decide)⟩

/-- Witness for `beacon_credits_payload_user`: the beacon names `u2`, who
does not own session `s1`, and `u2` receives the credit; and with the
nonexistent profile id `ghost` the session row is still closed. -/
theorem beacon_credits_payload_user_witness :
    store1.sessions "s1" = some session1 ∧
    store1.profiles "u2" = some profile1 ∧ session1.user_id ≠ "u2" ∧
    store1.profiles "ghost" = none ∧
    (closeSessionEdge store1 (some "s1") (some "u2") (some 300000)
        300000).2.profiles "u2" =
      some { profile1 with last_logout_at := some 300000,
                           total_active_minutes :=
                             profile1.total_active_minutes +
                               max 0 (roundMinutes
                                 (300000 - session1.login_at)) } ∧
    (closeSessionEdge store1 (some "s1") (some "ghost") (some 300000)
        300000).2.sessions "s1" =
      some { session1 with logout_at := some 300000,
                           duration_minutes :=
                             some (max 0 (roundMinutes
                               (300000 - session1.login_at))) } :=
  ⟨by decide, by decide, by decide, by decide,
   (beacon_credits_payload_user store1 "s1" "u2" session1 300000 300000
       (by decide)).1 profile1 (by decide),
   (beacon_credits_payload_user store1 "s1" "ghost" session1 300000 300000
       (by decide)).2 (by decide)⟩

theorem sessionInv_updateSession (st : Store) (sid : String) (s : Session)
    (h : SessionInv st)
    (hcl : s.logout_at = none ↔ s.duration_minutes = none) :
    SessionInv (st.updateSession sid s) := by
  intro k t hk
  simp only [Store.updateSession] at hk
  by_cases hks : k = sid
  · rw [if_pos hks] at hk
    obtain rfl : s = t := Option.some.inj hk
    exact hcl
  · rw [if_neg hks] at hk
    exact h k t hk

theorem sessionInv_updateProfile (st : Store) (uid : String) (p : Profile)
    (h : SessionInv st) : SessionInv (st.updateProfile uid p) :=
  fun k t hk => h k t hk

theorem sessionInv_createSession (st : Store) (u sid : String) (t : Int)
    (h : SessionInv st) : SessionInv (createSession st u sid t) := by
  simp only [createSession]
  split
  · exact sessionInv_updateSession st sid _ h (by simp)
  · exact sessionInv_updateProfile _ _ _
      (sessionInv_updateSession st sid _ h (by simp))

theorem sessionInv_login (st : Store) (u sid : String) (t : Int)
    (h : SessionInv st) : SessionInv (login st u sid t) := by
  simp only [login]
  split
  · exact h
  · exact sessionInv_updateSession _ _ _
      (sessionInv_updateProfile _ _ _ h) (by simp)

theorem sessionInv_closeSession (st : Store) (sid u : String) (t : Int)
    (h : SessionInv st) : SessionInv (closeSession st sid u t) := by
  simp only [closeSession]
  split
  · exact h
  · split
    · exact sessionInv_updateSession _ _ _ h (by simp)
    · exact sessionInv_updateProfile _ _ _
        (sessionInv_updateSession _ _ _ h (by simp))

theorem sessionInv_logout (st : Store) (c : String) (sid : Option String)
    (t : Int) (h : SessionInv st) : SessionInv (logout st c sid t).2 := by
  cases sid with
  | none => exact h
  | some sid =>
    cases hs : st.sessions sid with
    | none =>
      simp only [logout]
      rw [hs]
      exact h
    | some s =>
      by_cases hc : s.user_id ≠ c
      · simp only [logout]
        rw [hs]
        simp only [if_pos hc]
        exact h
      · simp only [logout]
        rw [hs]
        simp only [if_neg hc]
        split
        · exact sessionInv_updateSession _ _ _ h (by simp)
        · exact sessionInv_updateProfile _ _ _
            (sessionInv_updateSession _ _ _ h (by simp))

theorem sessionInv_closeSessionEdge (st : Store)
    (sid uid : Option String) (lat : Option Int) (t : Int)
    (h : SessionInv st) : SessionInv (closeSessionEdge st sid uid lat t).2 := by
  cases sid with
  | none => cases uid <;> exact h
  | some sid =>
    cases uid with
    | none => exact h
    | some uid =>
      simp only [closeSessionEdge]
      cases hs : st.sessions sid with
      | none => exact h
      | some s =>
        dsimp only
        split
        · exact sessionInv_updateSession _ _ _ h (by simp)
        · exact sessionInv_updateProfile _ _ _
            (sessionInv_updateSession _ _ _ h (by simp))

theorem sessionInv_applyOp (st : Store) (op : Op) (h : SessionInv st) :
    SessionInv (applyOp st op) := by
  cases op with
  | opCreate u sid t => exact sessionInv_createSession st u sid t h
  | opLogin u sid t => exact sessionInv_login st u sid t h
  | opCloseClient sid u t => exact sessionInv_closeSession st sid u t h
  | opLogout c sid t => exact sessionInv_logout st c sid t h
  | opCloseEdge sid uid lat t => exact sessionInv_closeSessionEdge st sid uid lat t h

/-- C7: over every sequence of lifecycle operations started from the empty
store — opens via the client insert or the Express login, closes via the
client path, the explicit-logout endpoint, or the beacon endpoint — every
stored session has `logout_at` null exactly when `duration_minutes` is
null: sessions are created with both null and every close path writes both
in the same update. -/
theorem lifecycle_logout_iff_duration (ops : List Op) :
    SessionInv (runOps emptyStore ops) := by
  have hstep : ∀ (st : Store), SessionInv st → ∀ l, SessionInv (runOps st l) := by
    intro st hst l
    induction l generalizing st with
    | nil => exact hst
    | cons op rest ih => exact ih (applyOp st op) (sessionInv_applyOp st op hst)
  exact hstep emptyStore (fun k t hk => by simp [emptyStore] at hk) ops
